import Mathlib

/-!
Shallow embedding of `camera_stream.py` and `stream_launcher.py`
(jetson-vision): the frame-sharing globals, the capture loop, the AI
analysis loop, the HTTP endpoints, and the launcher's command builder.
-/

namespace JetsonVision

/-- A captured frame: `cv2` pixel buffer abstracted as dimensions plus an
opaque payload. -/
structure Frame where
  width : Nat
  height : Nat
  data : List Nat
deriving DecidableEq, Repr

/-! ## FrameBus: the module globals `output_frame` / `lock`.

The capture thread's only mutation of shared frame state is
`with lock: output_frame = frame` (camera_stream.py:650-651); readers do
`frame = output_frame.copy()` under the same lock.  The bus state is the
current frame together with a version counter that counts publishes (each
assignment of `output_frame` is one publish, and they are totally ordered
by the lock). -/

structure FrameBus where
  frame : Option Frame
  version : Nat
deriving DecidableEq, Repr

/-- Startup state of the globals: `output_frame = None` (camera_stream.py:51). -/
def FrameBus.initial : FrameBus := ⟨none, 0⟩

/-- `with lock: output_frame = frame` — replace the frame, one more publish. -/
def FrameBus.publish (b : FrameBus) (f : Frame) : FrameBus :=
  ⟨some f, b.version + 1⟩

/-- Reader side: copy the current frame under the lock, or `none` when
`output_frame is None`. -/
def FrameBus.snapshot (b : FrameBus) : Option (Frame × Nat) :=
  b.frame.map (fun f => (f, b.version))

/-- The bus after a sequence of publishes, starting from the empty state. -/
def busAfter (fs : List Frame) : FrameBus :=
  fs.foldl FrameBus.publish FrameBus.initial

/-! ## Camera handles and the capture loop (`capture_frames`).

`open_camera` (camera_stream.py:566-609) returns an opened handle with the
negotiated width/height/fps, or `None` when the device cannot be opened or
its test read fails.  The result of each `open_camera` call is an input to
the model. -/

/-- An opened capture handle with its negotiated properties
(`CAP_PROP_FRAME_WIDTH` / `HEIGHT` / `FPS` as read back in `open_camera`
and `get_status`). -/
structure Camera where
  width : Nat
  height : Nat
  fps : ℚ
deriving DecidableEq, Repr

/-- Result of one `camera.read()` call in the capture loop. -/
inductive ReadResult
  | ok (f : Frame)
  | fail
deriving DecidableEq, Repr

/-- State shared by `capture_frames` and the HTTP handlers: the globals
`camera` and `output_frame`, the loop-local `consecutive_failures`, plus
ghost counters (number of publishes, number of reopen attempts) and a flag
recording that `capture_frames` has returned. -/
structure CapState where
  camera : Option Camera
  outputFrame : Option Frame
  busVersion : Nat
  consecutiveFailures : Nat
  reopenAttempts : Nat
  lastOpened : Option Camera
  stopped : Bool
deriving DecidableEq, Repr

/-- `capture_frames` start-up (camera_stream.py:616-626): assign
`camera = open_camera(...)`; when that is `None`, print troubleshooting
tips and return. -/
def captureInit (openResult : Option Camera) : CapState :=
  match openResult with
  | some cam =>
      { camera := some cam, outputFrame := none, busVersion := 0,
        consecutiveFailures := 0, reopenAttempts := 0,
        lastOpened := some cam, stopped := false }
  | none =>
      { camera := none, outputFrame := none, busVersion := 0,
        consecutiveFailures := 0, reopenAttempts := 0,
        lastOpened := none, stopped := true }

/-- One iteration of the capture loop (camera_stream.py:631-651).
`reopen` is what `open_camera` would return if the iteration attempts a
reopen.  On a failed read the counter is incremented; when it exceeds 30
the device is released and reopened (on reopen failure the thread
returns).  On a successful read the counter resets to 0 and the frame is
published under the lock. -/
def captureStep (reopen : Option Camera) (r : ReadResult) (s : CapState) : CapState :=
  if s.stopped then s
  else
    match r with
    | .ok f =>
        { s with consecutiveFailures := 0,
                 outputFrame := some f,
                 busVersion := s.busVersion + 1 }
    | .fail =>
        let n := s.consecutiveFailures + 1
        if n > 30 then
          match reopen with
          | some cam =>
              { s with camera := some cam,
                       consecutiveFailures := 0,
                       reopenAttempts := s.reopenAttempts + 1,
                       lastOpened := some cam }
          | none =>
              { s with camera := none,
                       reopenAttempts := s.reopenAttempts + 1,
                       stopped := true }
        else
          { s with consecutiveFailures := n }

/-- A full run of `capture_frames`: the initial open followed by a list of
loop iterations, each given as (reopen result, read result). -/
def captureRun (openResult : Option Camera)
    (events : List (Option Camera × ReadResult)) : CapState :=
  events.foldl (fun s e => captureStep e.1 e.2 s) (captureInit openResult)

/-! ## `GET /status` (`StreamHandler.get_status`, camera_stream.py:135-148). -/

/-- The JSON body returned by `/status`. -/
inductive StatusJson
  | running (width height : Nat) (fps : ℚ)
  | noCamera
deriving DecidableEq, Repr

/-- `get_status`: when the global `camera` is a live opened handle, report
`running` with the handle's current properties; otherwise `no camera`. -/
def get_status (s : CapState) : StatusJson :=
  match s.camera with
  | some c => .running c.width c.height c.fps
  | none => .noCamera

/-! ## Response cleanup (camera_stream.py:723-728).

`result_text = re.sub(r'<think>.*?</think>', '', result_text,
flags=re.DOTALL).strip()` followed by
`'\n'.join(line.strip() for line in result_text.split('\n') if line.strip())`. -/

/-- The characters of the literal `<think>`. -/
def openTag : List Char := "<think>".toList

/-- The characters of the literal `</think>`. -/
def closeTag : List Char := "</think>".toList

/-- Scan for the first occurrence of `</think>` and return the suffix
after it, or `none` when there is no occurrence (the regex engine's
search for the lazily-matched closing marker). -/
def dropThroughClose : List Char → Option (List Char)
  | [] => none
  | c :: cs =>
    if closeTag.isPrefixOf (c :: cs) then some (List.drop 8 (c :: cs))
    else dropThroughClose cs

/-- Fuelled scanner for the regex substitution; the fuel is an upper
bound on the remaining input length, so it never runs out when started
with `l.length`. -/
def removeThinkAux : Nat → List Char → List Char
  | _, [] => []
  | 0, l => l
  | fuel + 1, c :: cs =>
    if openTag.isPrefixOf (c :: cs) then
      match dropThroughClose (List.drop 7 (c :: cs)) with
      | some rest => removeThinkAux fuel rest
      | none => c :: removeThinkAux fuel cs
    else c :: removeThinkAux fuel cs

/-- `re.sub(r'<think>.*?</think>', '', s, flags=re.DOTALL)`: leftmost
non-greedy matching — at each position, if `<think>` starts here and a
`</think>` occurs later, delete through the nearest such `</think>` and
continue after it; otherwise keep the character. -/
def removeThink (l : List Char) : List Char := removeThinkAux l.length l

/-- Python `str.strip()` whitespace (the ASCII whitespace characters). -/
def isPyWhitespace (c : Char) : Bool :=
  c = ' ' || c = '\t' || c = '\n' || c = '\r' || c = '\x0b' || c = '\x0c'

/-- Python `str.strip()` on a character list. -/
def pyStrip (l : List Char) : List Char :=
  ((l.dropWhile isPyWhitespace).reverse.dropWhile isPyWhitespace).reverse

/-- The full cleanup applied to the model's `response` text: strip
`<think>` blocks, strip the result, then rejoin the non-empty stripped
lines with single newlines. -/
def cleanupResponse (s : String) : String :=
  let t := pyStrip (removeThink s.toList)
  String.mk
    (List.intercalate ['\n']
      (((List.splitOn '\n' t).map pyStrip).filter (fun ln => !ln.isEmpty)))

/-! ## The AI analysis loop (`ai_analysis_loop`, camera_stream.py:654-771).

One iteration of the `while True` loop: the `ai_enabled` gate, the
frame snapshot under `lock`, JPEG encoding, the `requests.post` to the
Ollama endpoint, the `analysis_result` update under `analysis_lock`, and
the backoff / pacing sleep.  External effects (the snapshot contents, the
request's outcome, wall-clock readings) are inputs to the step. -/

/-- The shared `analysis_result` dict (camera_stream.py:56-62). -/
structure AnalysisResult where
  description : String
  timestamp : Option String
  processingTime : Option ℚ
  error : Option String
  frameCount : Nat
deriving DecidableEq, Repr

/-- Initial `analysis_result` (camera_stream.py:56-62). -/
def initialAnalysisResult : AnalysisResult :=
  { description := "Waiting for first analysis...",
    timestamp := none, processingTime := none, error := none,
    frameCount := 0 }

/-- Loop state of `ai_analysis_loop`: the shared dict plus the loop-local
`frame_count` and `consecutive_errors`. -/
structure AiState where
  result : AnalysisResult
  frameCount : Nat
  consecutiveErrors : Nat
deriving DecidableEq, Repr

/-- State at entry to the analysis loop (camera_stream.py:658-659). -/
def initialAiState : AiState :=
  { result := initialAnalysisResult, frameCount := 0, consecutiveErrors := 0 }

/-- Outcome of the `requests.post` call to the Ollama endpoint. -/
inductive RequestOutcome
  | ok (responseText : String)
  | httpError (status : Nat) (body : String)
  | timeout
  | connError
deriving DecidableEq, Repr

/-- The error string stored on `requests.exceptions.Timeout`
(camera_stream.py:747). -/
def timeoutMsg : String := "Analysis timeout - model may be overloaded"

/-- The error string stored on `requests.exceptions.ConnectionError`
(camera_stream.py:753). -/
def connErrorMsg : String := "Cannot connect to Ollama - is it running? (ollama serve)"

/-- The error string stored by the generic handler: `str(e)[:150]`
prefixed with `Analysis error: ` (camera_stream.py:758-760). -/
def otherErrorMsg (e : String) : String :=
  "Analysis error: " ++ e.take 150

/-- The exception text raised for a non-200 status
(camera_stream.py:717-718). -/
def apiErrorText (status : Nat) (body : String) : String :=
  "Ollama API error: " ++ toString status ++ " - " ++ body.take 100

/-- The inputs consumed by one iteration of the analysis loop. -/
structure CycleInput where
  enabled : Bool
  frame : Option Frame
  encodeOk : Bool
  outcome : RequestOutcome
  tsNow : String
  elapsed : ℚ
deriving DecidableEq, Repr

/-- What one iteration did: the successor state, the duration passed to
the trailing `time.sleep`, and whether the iteration took a snapshot of
`output_frame` / issued a `requests.post`. -/
structure CycleResult where
  state : AiState
  sleep : ℚ
  snapshotted : Bool
  submitted : Bool
deriving DecidableEq, Repr

/-- `round(x, 2)` applied to the processing time (camera_stream.py:738). -/
def round2 (q : ℚ) : ℚ := (round (q * 100) : ℤ) / 100

/-- The backoff sleep when `consecutive_errors > 0`:
`min(AI_CONFIG['analysis_interval'] * consecutive_errors, 30.0)`
(camera_stream.py:764-766). -/
def backoffSleep (intrvl : ℚ) (consecutiveErrors : Nat) : ℚ :=
  min (intrvl * consecutiveErrors) 30

/-- The pacing sleep after a clean cycle:
`max(0.1, AI_CONFIG['analysis_interval'] - elapsed)`
(camera_stream.py:768-770). -/
def paceSleep (intrvl : ℚ) (elapsed : ℚ) : ℚ :=
  max (1 / 10) (intrvl - elapsed)

/-- The error path shared by the three `except` handlers: set only
`analysis_result['error']`, bump `consecutive_errors`, then sleep the
backoff. -/
def aiErrorStep (intrvl : ℚ) (msg : String) (snap submitted : Bool)
    (s : AiState) : CycleResult :=
  let s' : AiState :=
    { s with consecutiveErrors := s.consecutiveErrors + 1,
             result := { s.result with error := some msg } }
  { state := s', sleep := backoffSleep intrvl s'.consecutiveErrors,
    snapshotted := snap, submitted := submitted }

/-- One iteration of the `while True` loop of `ai_analysis_loop`
(camera_stream.py:674-771), with `AI_CONFIG['analysis_interval'] = intrvl`. -/
def aiCycle (intrvl : ℚ) (inp : CycleInput) (s : AiState) : CycleResult :=
  if !inp.enabled then
    -- not ai_enabled: time.sleep(1.0); continue
    { state := s, sleep := 1, snapshotted := false, submitted := false }
  else
    match inp.frame with
    | none =>
        -- output_frame is None: time.sleep(0.5); continue (no submission)
        { state := s, sleep := 1 / 2, snapshotted := true, submitted := false }
    | some _ =>
        if !inp.encodeOk then
          -- raise Exception("Failed to encode frame"), caught by the
          -- generic handler before any request is issued
          aiErrorStep intrvl (otherErrorMsg "Failed to encode frame")
            true false s
        else
          match inp.outcome with
          | .ok text =>
              let cleaned := cleanupResponse text
              let fc := s.frameCount + 1
              let s' : AiState :=
                { frameCount := fc, consecutiveErrors := 0,
                  result :=
                    { description := cleaned,
                      timestamp := some inp.tsNow,
                      processingTime := some (round2 inp.elapsed),
                      error := none,
                      frameCount := fc } }
              { state := s', sleep := paceSleep intrvl inp.elapsed,
                snapshotted := true, submitted := true }
          | .httpError st body =>
              aiErrorStep intrvl (otherErrorMsg (apiErrorText st body))
                true true s
          | .timeout => aiErrorStep intrvl timeoutMsg true true s
          | .connError => aiErrorStep intrvl connErrorMsg true true s

/-- A run of the analysis loop from a given state. -/
def aiRun (intrvl : ℚ) (inps : List CycleInput) (s : AiState) : AiState :=
  inps.foldl (fun st i => (aiCycle intrvl i st).state) s

/-- An iteration counts as a successful analysis cycle exactly when it is
enabled, has a frame, encodes it, and gets a 200 response. -/
def isSuccessCycle (inp : CycleInput) : Bool :=
  inp.enabled && inp.frame.isSome && inp.encodeOk &&
    (match inp.outcome with | .ok _ => true | _ => false)

/-! ## Lock discipline of the three loops.

Each loop body is listed as its sequence of externally relevant actions,
each labelled with the locks held while it executes, read off the
`with lock:` / `with analysis_lock:` block structure of
`StreamHandler.stream_video` (camera_stream.py:112-133),
`ai_analysis_loop` (camera_stream.py:654-771) and `capture_frames`
(camera_stream.py:630-651). -/

/-- The two `threading.Lock`s: `lock` (frame sharing, camera_stream.py:52)
and `analysis_lock` (camera_stream.py:63). -/
inductive LockId
  | frameLock
  | analysisLock
deriving DecidableEq, Repr

/-- Kinds of externally relevant actions in the loop bodies. -/
inductive ActKind
  | deviceRead
  | deviceRelease
  | netCall
  | clientWrite
  | sleep
  | frameCopy
  | frameReplace
  | resultWrite
  | encode
deriving DecidableEq, Repr

/-- An action together with the locks held while it runs. -/
structure Act where
  kind : ActKind
  heldLocks : List LockId
deriving DecidableEq, Repr

/-- Suspension points: device reads, network calls, client writes, sleeps. -/
def isSuspension : ActKind → Bool
  | .deviceRead | .netCall | .clientWrite | .sleep => true
  | _ => false

/-- Actions of one iteration of `stream_video`'s `while True` loop
(camera_stream.py:115-131), in program order over both branches. -/
def streamVideoActs : List Act :=
  [ ⟨.sleep, [.frameLock]⟩,       -- time.sleep(0.01) inside `with lock:` (line 118)
    ⟨.frameCopy, [.frameLock]⟩,   -- output_frame.copy() (line 120)
    ⟨.encode, []⟩,                -- cv2.imencode (line 123)
    ⟨.clientWrite, []⟩,           -- wfile.write(b'--frame\r\n') (line 128)
    ⟨.clientWrite, []⟩,           -- wfile.write(content-type header) (line 129)
    ⟨.clientWrite, []⟩,           -- wfile.write(jpeg bytes) (line 130)
    ⟨.clientWrite, []⟩ ]          -- wfile.write(b'\r\n') (line 131)

/-- Actions of `ai_analysis_loop` (camera_stream.py:664-771): the startup
wait, then one iteration of the main loop over all branches. -/
def aiLoopActs : List Act :=
  [ ⟨.sleep, []⟩,                  -- startup wait time.sleep(0.5) (line 668)
    ⟨.sleep, []⟩,                  -- disabled gate time.sleep(1.0) (line 677)
    ⟨.sleep, [.frameLock]⟩,        -- time.sleep(0.5) inside `with lock:` (line 686)
    ⟨.frameCopy, [.frameLock]⟩,    -- output_frame.copy() (line 688)
    ⟨.encode, []⟩,                 -- resize + imencode + b64encode (lines 693-703)
    ⟨.netCall, []⟩,                -- requests.post(...) (line 706)
    ⟨.resultWrite, [.analysisLock]⟩, -- success update (lines 735-740)
    ⟨.resultWrite, [.analysisLock]⟩, -- timeout handler update (lines 746-747)
    ⟨.resultWrite, [.analysisLock]⟩, -- connection-error handler update (lines 752-753)
    ⟨.resultWrite, [.analysisLock]⟩, -- generic handler update (lines 759-760)
    ⟨.sleep, []⟩,                  -- backoff time.sleep(backoff) (line 766)
    ⟨.sleep, []⟩ ]                 -- pacing time.sleep(sleep_time) (line 771)

/-- Actions of one iteration of the capture loop
(camera_stream.py:631-651) over all branches. -/
def captureLoopActs : List Act :=
  [ ⟨.deviceRead, []⟩,            -- camera.read() (line 632)
    ⟨.deviceRelease, []⟩,         -- camera.release() (line 638)
    ⟨.sleep, []⟩,                 -- reopen wait time.sleep(1) (line 639)
    ⟨.deviceRead, []⟩,            -- open_camera: open + test read (line 640)
    ⟨.sleep, []⟩,                 -- retry time.sleep(0.01) (line 645)
    ⟨.frameReplace, [.frameLock]⟩ ] -- `with lock: output_frame = frame` (650-651)

/-- All actions of the capture loop, the analysis loop and a stream
worker. -/
def allLoopActs : List Act := captureLoopActs ++ aiLoopActs ++ streamVideoActs

/-- Whether every suspension point in a list of actions runs with no lock
held. -/
def lockFreeSuspensions (acts : List Act) : Bool :=
  acts.all (fun a => !isSuspension a.kind || a.heldLocks.isEmpty)

/-- The lock-discipline property as the spec states it: no lock is ever
held across any suspension point of the three loops. -/
def c2LockDiscipline : Prop := lockFreeSuspensions allLoopActs = true

/-! ## `/video_feed` bytes (camera_stream.py:86-92 and 122-131). -/

/-- ASCII bytes of a marker string. -/
def asciiBytes (s : String) : List Nat := s.toList.map Char.toNat

/-- The JPEG quality passed to `cv2.imencode` in `stream_video`
(camera_stream.py:123): the literal 80. -/
def streamVideoJpegQuality : Nat := 80

/-- The bytes written to the client for one frame: the four
`self.wfile.write` calls of `stream_video` (camera_stream.py:128-131)
concatenated. -/
def framePart (jpeg : List Nat) : List Nat :=
  asciiBytes "--frame\r\n" ++
    asciiBytes "Content-Type: image/jpeg\r\n\r\n" ++
    jpeg ++
    asciiBytes "\r\n"

/-- The response headers sent for `/video_feed`
(camera_stream.py:87-91). -/
def videoFeedHeaders : List (String × String) :=
  [ ("Content-Type", "multipart/x-mixed-replace; boundary=frame"),
    ("Cache-Control", "no-cache, no-store, must-revalidate"),
    ("Pragma", "no-cache"),
    ("Expires", "0") ]

/-! ## The launcher's command builder
(`StreamLauncher.get_stream_command`, stream_launcher.py:239-258). -/

/-- `RESOLUTIONS` (stream_launcher.py:13-19). -/
def RESOLUTIONS : List (String × Nat × Nat) :=
  [ ("4K Ultra HD", 3840, 2160),
    ("1080p Full HD", 1920, 1080),
    ("720p HD", 1280, 720),
    ("480p SD", 640, 480),
    ("360p Low", 480, 360) ]

/-- `FRAMERATES` (stream_launcher.py:21-26). -/
def FRAMERATES : List (String × Nat) :=
  [ ("60 FPS (Smooth)", 60),
    ("30 FPS (Standard)", 30),
    ("24 FPS (Cinematic)", 24),
    ("15 FPS (Low bandwidth)", 15) ]

/-- `QUALITY` (stream_launcher.py:28-32). -/
def QUALITY : List (String × Nat) :=
  [ ("High (90%)", 90),
    ("Medium (80%)", 80),
    ("Low (60%)", 60) ]

/-- `PORTS` (stream_launcher.py:34-39). -/
def PORTS : List (String × Nat) :=
  [ ("8080 (Default)", 8080),
    ("8000", 8000),
    ("5000", 5000),
    ("3000", 3000) ]

/-- The launcher's `self.selections`: an in-range index into each menu
(`handle_input` clamps each index to the menu's option count,
stream_launcher.py:216-225). -/
structure Selections where
  resolution : Fin RESOLUTIONS.length
  fps : Fin FRAMERATES.length
  quality : Fin QUALITY.length
  port : Fin PORTS.length
deriving DecidableEq, Repr

/-- `get_stream_command` (stream_launcher.py:239-258): the argv built for
`camera_stream.py`.  `pythonExe` and `scriptPath` stand for
`sys.executable` and the joined script path. -/
def get_stream_command (pythonExe scriptPath : String) (sel : Selections)
    (detectedDevice : Option String) : List String :=
  let res := RESOLUTIONS.get sel.resolution
  let fps := FRAMERATES.get sel.fps
  let port := PORTS.get sel.port
  [ pythonExe, scriptPath,
    "--width", toString res.2.1,
    "--height", toString res.2.2,
    "--fps", toString fps.2,
    "--port", toString port.2 ] ++
  (match detectedDevice with
   | some d => ["--device", d]
   | none => [])

/-- The argument flags `camera_stream.py`'s argparse recognises
(camera_stream.py:790-807). -/
def cameraStreamArgFlags : List String :=
  [ "--port", "--device", "--camera", "--width", "--height", "--fps",
    "--ai-interval", "--ai-prompt", "--ai-model", "--no-ai",
    "--ollama-url" ]

/-- Whether `pat` occurs as a contiguous subsequence of `l` (the regex
engine's occurrence test). -/
def containsSeq (pat : List Char) : List Char → Bool
  | [] => pat.isPrefixOf []
  | c :: cs => pat.isPrefixOf (c :: cs) || containsSeq pat cs

/-- Outcomes of `requests.post` that land in an `except` handler. -/
def isFailureOutcome : RequestOutcome → Bool
  | .ok _ => false
  | _ => true

/-- The `/status` behaviour exactly as the claim states it: `no camera`
whenever no capture has ever succeeded, and `running` with the last
negotiated values as soon as at least one frame has been published. -/
def c7Claim : Prop :=
  (∀ events, get_status (captureRun none events) = .noCamera) ∧
  (∀ (openRes : Option Camera) (events : List (Option Camera × ReadResult)),
      1 ≤ (captureRun openRes events).busVersion →
      ∃ c, (captureRun openRes events).lastOpened = some c ∧
        get_status (captureRun openRes events) = .running c.width c.height c.fps)

/-- A camera that negotiated 1280x720 at 30 fps. -/
def c7Cam : Camera := ⟨1280, 720, 30⟩

/-- A run that publishes one frame, then hits 31 consecutive read
failures with a failing reopen. -/
def c7Events : List (Option Camera × ReadResult) :=
  (none, .ok ⟨1280, 720, [42]⟩) :: List.replicate 31 (none, .fail)

/-! # Theorems -/

theorem dropThroughClose_length :
    ∀ (l r : List Char), dropThroughClose l = some r → r.length < l.length := by
  intro l
  induction l with
  | nil => intro r h; simp [dropThroughClose] at h
  | cons c cs ih =>
      intro r h
      simp only [dropThroughClose] at h
      split at h
      · cases h
        simp only [List.length_drop, List.length_cons]
        omega
      · have := ih r h
        simp only [List.length_cons]
        omega

/-- The fuel does not matter as long as it bounds the input length. -/
theorem removeThinkAux_fuel :
    ∀ (f₁ : Nat) (l : List Char) (f₂ : Nat), l.length ≤ f₁ → l.length ≤ f₂ →
      removeThinkAux f₁ l = removeThinkAux f₂ l := by
  intro f₁
  induction f₁ with
  | zero =>
      intro l f₂ h₁ _
      have : l = [] := List.length_eq_zero.mp (Nat.le_zero.mp h₁)
      subst this
      cases f₂ <;> rfl
  | succ f ih =>
      intro l f₂ h₁ h₂
      rcases l with _ | ⟨c, cs⟩
      · cases f₂ <;> rfl
      · rcases f₂ with _ | m
        · exact absurd h₂ (by simp)
        · have hcs : cs.length ≤ f := by
            simp only [List.length_cons] at h₁; omega
          have hcs' : cs.length ≤ m := by
            simp only [List.length_cons] at h₂; omega
          simp only [removeThinkAux]
          by_cases hpre : openTag.isPrefixOf (c :: cs) = true
          · simp only [hpre, if_true]
            rcases hd : dropThroughClose (List.drop 7 (c :: cs)) with _ | rest
            · exact congrArg (c :: ·) (ih cs m hcs hcs')
            · have hlen := dropThroughClose_length _ _ hd
              simp only [List.length_drop, List.length_cons] at hlen
              have hr : rest.length ≤ f := by
                simp only [List.length_cons] at h₁; omega
              have hr' : rest.length ≤ m := by
                simp only [List.length_cons] at h₂; omega
              exact ih rest m hr hr'
          · rw [Bool.not_eq_true] at hpre
            simp only [hpre, Bool.false_eq_true, if_false]
            exact congrArg (c :: ·) (ih cs m hcs hcs')


theorem busAfter_version (fs : List Frame) : (busAfter fs).version = fs.length := by
  suffices h : ∀ (b : FrameBus), (fs.foldl FrameBus.publish b).version = b.version + fs.length by
    simpa [busAfter, FrameBus.initial] using h FrameBus.initial
  induction fs with
  | nil => intro b; simp
  | cons f fs ih =>
      intro b
      simp only [List.foldl_cons, ih, FrameBus.publish, List.length_cons]
      omega

/-- C1: every publish strictly increases the FrameBus version, and a
reader's observed version across successive `snapshot()` calls is
non-decreasing: a snapshot taken after further publishes never reports a
smaller version. -/
theorem frameBus_version_monotone :
    (∀ (b : FrameBus) (f : Frame), b.version < (b.publish f).version) ∧
    (∀ (fs ext : List Frame) (f₁ f₂ : Frame) (v₁ v₂ : Nat),
      (busAfter fs).snapshot = some (f₁, v₁) →
      (busAfter (fs ++ ext)).snapshot = some (f₂, v₂) →
      v₁ ≤ v₂) := by
  constructor
  · intro b f
    simp [FrameBus.publish]
  · intro fs ext f₁ f₂ v₁ v₂ h₁ h₂
    have e₁ : v₁ = (busAfter fs).version := by
      simp only [FrameBus.snapshot, Option.map_eq_some'] at h₁
      obtain ⟨f, -, hf⟩ := h₁
      exact (Prod.mk.injEq .. ▸ hf).2.symm
    have e₂ : v₂ = (busAfter (fs ++ ext)).version := by
      simp only [FrameBus.snapshot, Option.map_eq_some'] at h₂
      obtain ⟨f, -, hf⟩ := h₂
      exact (Prod.mk.injEq .. ▸ hf).2.symm
    rw [e₁, e₂, busAfter_version, busAfter_version, List.length_append]
    omega

/-- Witness for C1 at a concrete publish sequence. -/
theorem frameBus_version_monotone_witness :
    (busAfter [(⟨1, 1, [0]⟩ : Frame)]).snapshot = some ((⟨1, 1, [0]⟩ : Frame), 1) ∧
    (busAfter ([(⟨1, 1, [0]⟩ : Frame)] ++ [(⟨2, 2, [1]⟩ : Frame)])).snapshot
      = some ((⟨2, 2, [1]⟩ : Frame), 2) ∧
    1 ≤ 2 :=
  ⟨by decide, by decide,
    frameBus_version_monotone.2 [(⟨1, 1, [0]⟩ : Frame)] [(⟨2, 2, [1]⟩ : Frame)]
      ⟨1, 1, [0]⟩ ⟨2, 2, [1]⟩ 1 2 (by decide) (by decide)⟩

/-- Once `capture_frames` has returned, no further loop iteration
happens: the stopped state is absorbing. -/
theorem captureStep_of_stopped (e : Option Camera) (r : ReadResult) (s : CapState)
    (h : s.stopped = true) : captureStep e r s = s := by
  simp [captureStep, h]

/-- C3: in the capture loop, when the consecutive-failure counter exceeds
30 on a failed read, exactly one reopen attempt is made; below the
threshold none is made; a failed reopen puts the service in the terminal
stopped state (absorbing for all further events); a successful reopen
resumes the loop with the counter reset; and any successful read resets
the counter to 0. -/
theorem captureStep_reopen_spec (s : CapState) (reopen : Option Camera) (f : Frame)
    (hrun : s.stopped = false) :
    (30 < s.consecutiveFailures + 1 →
        (captureStep reopen .fail s).reopenAttempts = s.reopenAttempts + 1) ∧
    (s.consecutiveFailures + 1 ≤ 30 →
        (captureStep reopen .fail s).reopenAttempts = s.reopenAttempts) ∧
    (30 < s.consecutiveFailures + 1 → reopen = none →
        (captureStep reopen .fail s).stopped = true ∧
        ∀ (e : Option Camera) (r : ReadResult),
          captureStep e r (captureStep reopen .fail s) =
            captureStep reopen .fail s) ∧
    (30 < s.consecutiveFailures + 1 → ∀ cam, reopen = some cam →
        (captureStep reopen .fail s).stopped = false ∧
        (captureStep reopen .fail s).consecutiveFailures = 0) ∧
    (captureStep reopen (.ok f) s).consecutiveFailures = 0 := by
  refine ⟨?_, ?_, ?_, ?_, ?_⟩
  · intro hthr
    cases reopen <;> simp [captureStep, hrun, if_pos hthr]
  · intro hthr
    have : ¬ 30 < s.consecutiveFailures + 1 := by omega
    simp [captureStep, hrun, this]
  · rintro hthr rfl
    have hstep : (captureStep none .fail s).stopped = true := by
      simp [captureStep, hrun, if_pos hthr]
    exact ⟨hstep, fun e r => captureStep_of_stopped e r _ hstep⟩
  · rintro hthr cam rfl
    simp [captureStep, hrun, if_pos hthr]
  · simp [captureStep, hrun]

/-- Witness for C3 at the threshold state: 30 prior consecutive failures,
one more failed read. -/
theorem captureStep_reopen_spec_witness :
    (({ camera := some ⟨1280, 720, 30⟩, outputFrame := none, busVersion := 0,
        consecutiveFailures := 30, reopenAttempts := 0,
        lastOpened := some ⟨1280, 720, 30⟩, stopped := false } : CapState).stopped
      = false) ∧
    (captureStep none .fail
      { camera := some ⟨1280, 720, 30⟩, outputFrame := none, busVersion := 0,
        consecutiveFailures := 30, reopenAttempts := 0,
        lastOpened := some ⟨1280, 720, 30⟩, stopped := false }).reopenAttempts = 1 ∧
    (captureStep none .fail
      { camera := some ⟨1280, 720, 30⟩, outputFrame := none, busVersion := 0,
        consecutiveFailures := 30, reopenAttempts := 0,
        lastOpened := some ⟨1280, 720, 30⟩, stopped := false }).stopped = true := by
  have h := captureStep_reopen_spec
    { camera := some ⟨1280, 720, 30⟩, outputFrame := none, busVersion := 0,
      consecutiveFailures := 30, reopenAttempts := 0,
      lastOpened := some ⟨1280, 720, 30⟩, stopped := false }
    none ⟨1, 1, [0]⟩ (by decide)
  exact ⟨by decide, h.1 (by decide), (h.2.2.1 (by decide) rfl).1⟩

/-- C2 counterexample: the claimed lock discipline — no lock ever held
across a suspension point in the three loops — is false: `stream_video`
executes `time.sleep(0.01)` inside its `with lock:` block
(camera_stream.py:116-118), and `ai_analysis_loop` likewise sleeps 0.5 s
inside `with lock:` (camera_stream.py:684-686). -/
theorem lock_discipline_counterexample : ¬ c2LockDiscipline := by
  unfold c2LockDiscipline
  decide

/-- C2 (amended): no lock is ever held across a device read, a network
call, or a client write, and the AnalysisState lock is never held across
any suspension point; the only suspension points executed under a lock
are the wait-for-first-frame sleeps of the stream worker and the analysis
loop, which hold the FrameBus lock. -/
theorem lock_discipline_amended :
    (∀ a ∈ allLoopActs,
        (a.kind = .deviceRead ∨ a.kind = .netCall ∨ a.kind = .clientWrite) →
        a.heldLocks = []) ∧
    (∀ a ∈ allLoopActs, isSuspension a.kind = true →
        LockId.analysisLock ∉ a.heldLocks) ∧
    (∀ a ∈ allLoopActs, isSuspension a.kind = true → a.heldLocks ≠ [] →
        a.kind = .sleep ∧ a.heldLocks = [.frameLock]) := by
  refine ⟨?_, ?_, ?_⟩ <;> decide

/-- Witness for C2 (amended) at concrete actions: the `requests.post`
action holds no lock, and the stream worker's in-lock action is the
wait-for-frame sleep holding exactly the FrameBus lock. -/
theorem lock_discipline_amended_witness :
    ((⟨.netCall, []⟩ : Act) ∈ allLoopActs ∧ (⟨.netCall, []⟩ : Act).heldLocks = []) ∧
    ((⟨.sleep, [.frameLock]⟩ : Act).kind = .sleep ∧
      (⟨.sleep, [.frameLock]⟩ : Act).heldLocks = [.frameLock]) :=
  ⟨⟨by decide,
      lock_discipline_amended.1 ⟨.netCall, []⟩ (by decide) (Or.inr (Or.inl rfl))⟩,
    lock_discipline_amended.2.2 ⟨.sleep, [.frameLock]⟩ (by decide) (by decide) (by decide)⟩

/-- A run that never has a live camera stays in the stopped state. -/
theorem captureRun_foldl_stopped (events : List (Option Camera × ReadResult))
    (s : CapState) (h : s.stopped = true) :
    events.foldl (fun st e => captureStep e.1 e.2 st) s = s := by
  induction events with
  | nil => rfl
  | cons e es ih => simpa [captureStep_of_stopped e.1 e.2 s h] using ih

/-- Auxiliary invariant: `camera = some c → lastOpened = some c` is
preserved by every capture-loop iteration. -/
theorem captureFoldl_camera_lastOpened
    (events : List (Option Camera × ReadResult)) :
    ∀ (s : CapState),
      (∀ c', s.camera = some c' → s.lastOpened = some c') →
      ∀ c', (events.foldl (fun st e => captureStep e.1 e.2 st) s).camera = some c' →
        (events.foldl (fun st e => captureStep e.1 e.2 st) s).lastOpened = some c' := by
  induction events with
  | nil => intro s hs c' h'; exact hs c' h'
  | cons e es ih =>
      intro s hs c' h'
      refine ih (captureStep e.1 e.2 s) ?_ c' h'
      intro c'' hc''
      by_cases hstop : s.stopped = true
      · rw [captureStep_of_stopped _ _ _ hstop] at hc'' ⊢
        exact hs c'' hc''
      · rw [Bool.not_eq_true] at hstop
        rcases e with ⟨reopen, r⟩
        rcases r with f | _
        · simp only [captureStep, hstop] at hc'' ⊢
          simp only [Bool.false_eq_true, if_false] at hc'' ⊢
          exact hs c'' hc''
        · simp only [captureStep, hstop, Bool.false_eq_true, if_false] at hc'' ⊢
          by_cases hthr : 30 < s.consecutiveFailures + 1
          · rcases reopen with _ | cam
            · simp [if_pos hthr] at hc''
            · simp only [if_pos hthr] at hc'' ⊢
              simp only [Option.some.injEq] at hc''
              simp [hc'']
          · simp only [if_neg hthr] at hc'' ⊢
            exact hs c'' hc''

/-- Whenever the global `camera` is a live handle, it is exactly the
handle produced by the last successful `open_camera`. -/
theorem captureRun_camera_lastOpened (openRes : Option Camera)
    (events : List (Option Camera × ReadResult)) (c : Camera)
    (h : (captureRun openRes events).camera = some c) :
    (captureRun openRes events).lastOpened = some c := by
  refine captureFoldl_camera_lastOpened events (captureInit openRes) ?_ c h
  intro c' hc'
  cases openRes <;> simp_all [captureInit]

/-- C7 counterexample: after one published frame followed by 31
consecutive read failures and a failed reopen, the capture thread has
returned with `camera = None`, so `/status` reports `no camera` even
though a frame was published — refuting the claim that at least one
published frame makes `/status` report `running`. -/
theorem status_counterexample : ¬ c7Claim := by
  intro h
  obtain ⟨c, -, hrun⟩ := h.2 (some c7Cam) c7Events (by decide)
  have hnc : get_status (captureRun (some c7Cam) c7Events) = .noCamera := by decide
  rw [hnc] at hrun
  exact StatusJson.noConfusion hrun

/-- C7 (amended): `/status` reports `no camera` whenever no capture has
ever succeeded (failed initial open), and reports `running` with exactly
the last successfully negotiated width/height/fps whenever the camera
handle is currently open — in particular after published frames while the
device stays open; when the handle is gone (e.g. after a failed reopen)
it reports `no camera` even if frames were published earlier. -/
theorem status_amended :
    (∀ events, get_status (captureRun none events) = .noCamera) ∧
    (∀ (openRes : Option Camera) (events : List (Option Camera × ReadResult))
        (c : Camera),
        (captureRun openRes events).camera = some c →
        (captureRun openRes events).lastOpened = some c ∧
        get_status (captureRun openRes events) = .running c.width c.height c.fps) ∧
    (∀ (openRes : Option Camera) (events : List (Option Camera × ReadResult)),
        (captureRun openRes events).camera = none →
        get_status (captureRun openRes events) = .noCamera) := by
  refine ⟨?_, ?_, ?_⟩
  · intro events
    have : captureRun none events = captureInit none :=
      captureRun_foldl_stopped events (captureInit none) rfl
    rw [this]
    rfl
  · intro openRes events c h
    refine ⟨captureRun_camera_lastOpened openRes events c h, ?_⟩
    simp [get_status, h]
  · intro openRes events h
    simp [get_status, h]

/-- Witness for C7 (amended): one successful read after a successful
open keeps the handle live, and `/status` reports `running 1280 720 30`. -/
theorem status_amended_witness :
    (captureRun (some c7Cam) [(none, .ok ⟨1280, 720, [42]⟩)]).camera = some c7Cam ∧
    get_status (captureRun (some c7Cam) [(none, .ok ⟨1280, 720, [42]⟩)])
      = .running 1280 720 30 :=
  ⟨by decide,
    (status_amended.2.1 (some c7Cam) [(none, .ok ⟨1280, 720, [42]⟩)] c7Cam (by decide)).2⟩

/-- C4: after an errored cycle with consecutive-error count `n`, the
sleep is `min(interval * n, 30)`; with interval 5 the first three
failures sleep 5, 10, 15 seconds and from the sixth failure on the sleep
is capped at 30; after a successful cycle the counter resets to 0 and the
sleep is `max(0.1, interval - elapsed)`. -/
theorem backoff_pacing_spec (intrvl : ℚ) (inp : CycleInput) (s : AiState) :
    (inp.enabled = true → inp.frame.isSome = true →
      (inp.encodeOk = false ∨ isFailureOutcome inp.outcome = true) →
      (aiCycle intrvl inp s).state.consecutiveErrors = s.consecutiveErrors + 1 ∧
      (aiCycle intrvl inp s).sleep
        = min (intrvl * ((s.consecutiveErrors + 1 : ℕ) : ℚ)) 30) ∧
    (backoffSleep 5 1 = 5 ∧ backoffSleep 5 2 = 10 ∧ backoffSleep 5 3 = 15) ∧
    (∀ n : ℕ, 6 ≤ n → backoffSleep 5 n = 30) ∧
    (isSuccessCycle inp = true →
      (aiCycle intrvl inp s).state.consecutiveErrors = 0 ∧
      (aiCycle intrvl inp s).sleep = max (1 / 10) (intrvl - inp.elapsed)) := by
  obtain ⟨en, fr, eo, oc, ts, el⟩ := inp
  refine ⟨?_, ⟨?_, ?_, ?_⟩, ?_, ?_⟩
  · rintro rfl hfr hfail
    obtain ⟨f, rfl⟩ := Option.isSome_iff_exists.mp hfr
    cases eo
    · simp [aiCycle, aiErrorStep, backoffSleep]
    · rcases oc with text | ⟨st, body⟩ | _ | _ <;>
        simp_all [aiCycle, aiErrorStep, backoffSleep, isFailureOutcome]
  · rw [backoffSleep]; norm_num [min_def]
  · rw [backoffSleep]; norm_num [min_def]
  · rw [backoffSleep]; norm_num [min_def]
  · intro n hn
    have h6 : (6 : ℚ) ≤ (n : ℚ) := by exact_mod_cast hn
    have h30 : (30 : ℚ) ≤ 5 * n := by linarith
    simp [backoffSleep, min_eq_right h30]
  · intro hsucc
    simp only [isSuccessCycle, Bool.and_eq_true] at hsucc
    obtain ⟨⟨⟨hen, hfr⟩, heo⟩, hoc⟩ := hsucc
    obtain ⟨f, rfl⟩ := Option.isSome_iff_exists.mp hfr
    rcases oc with text | ⟨st, body⟩ | _ | _ <;> simp_all [aiCycle, paceSleep]

/-- Witness for C4: with interval 5 seconds, an errored cycle at prior
error count 0 sleeps 5 seconds, and a successful cycle at elapsed time 2
sleeps 3 seconds with the counter reset. -/
theorem backoff_pacing_spec_witness :
    (aiCycle 5 ⟨true, some ⟨1, 1, [0]⟩, true, .timeout, "12:00:00", 2⟩
        initialAiState).sleep = 5 ∧
    (aiCycle 5 ⟨true, some ⟨1, 1, [0]⟩, true, .ok "hi", "12:00:00", 2⟩
        initialAiState).state.consecutiveErrors = 0 ∧
    (aiCycle 5 ⟨true, some ⟨1, 1, [0]⟩, true, .ok "hi", "12:00:00", 2⟩
        initialAiState).sleep = max (1 / 10) (5 - 2) := by
  have h1 := (backoff_pacing_spec 5
    ⟨true, some ⟨1, 1, [0]⟩, true, .timeout, "12:00:00", 2⟩ initialAiState).1
    rfl rfl (Or.inr rfl)
  have h2 := (backoff_pacing_spec 5
    ⟨true, some ⟨1, 1, [0]⟩, true, .ok "hi", "12:00:00", 2⟩ initialAiState).2.2.2
    rfl
  refine ⟨?_, h2.1, h2.2⟩
  rw [h1.2]
  norm_num [initialAiState]

/-- C5: while `ai_enabled` is false a cycle leaves the state untouched,
takes no snapshot, issues no submission and just sleeps the 1-second poll
interval; as soon as the flag is true the next loop check snapshots
again, and submits whenever a frame is available and encodes. -/
theorem enabled_gate_spec (intrvl : ℚ) (inp : CycleInput) (s : AiState) :
    (inp.enabled = false →
      aiCycle intrvl inp s
        = { state := s, sleep := 1, snapshotted := false, submitted := false }) ∧
    (inp.enabled = true → (aiCycle intrvl inp s).snapshotted = true) ∧
    (inp.enabled = true → inp.frame.isSome = true → inp.encodeOk = true →
      (aiCycle intrvl inp s).submitted = true) := by
  obtain ⟨en, fr, eo, oc, ts, el⟩ := inp
  refine ⟨?_, ?_, ?_⟩
  · rintro rfl
    simp [aiCycle]
  · rintro rfl
    rcases fr with _ | f
    · simp [aiCycle]
    · cases eo
      · simp [aiCycle, aiErrorStep]
      · rcases oc with text | ⟨st, body⟩ | _ | _ <;> simp [aiCycle, aiErrorStep]
  · rintro rfl hfr rfl
    obtain ⟨f, rfl⟩ := Option.isSome_iff_exists.mp hfr
    rcases oc with text | ⟨st, body⟩ | _ | _ <;> simp [aiCycle, aiErrorStep]

/-- Witness for C5: a disabled cycle is a no-op sleep; an enabled cycle
with a frame submits. -/
theorem enabled_gate_spec_witness :
    aiCycle 5 ⟨false, some ⟨1, 1, [0]⟩, true, .ok "hi", "12:00:00", 2⟩ initialAiState
      = { state := initialAiState, sleep := 1,
          snapshotted := false, submitted := false } ∧
    (aiCycle 5 ⟨true, some ⟨1, 1, [0]⟩, true, .ok "hi", "12:00:00", 2⟩
        initialAiState).submitted = true :=
  ⟨(enabled_gate_spec 5 ⟨false, some ⟨1, 1, [0]⟩, true, .ok "hi", "12:00:00", 2⟩
      initialAiState).1 rfl,
    (enabled_gate_spec 5 ⟨true, some ⟨1, 1, [0]⟩, true, .ok "hi", "12:00:00", 2⟩
      initialAiState).2.2 rfl rfl rfl⟩

/-- The loop-local `frame_count` and the published
`analysis_result['frame_count']` agree after every cycle, provided they
agreed before. -/
theorem aiCycle_frameCount_synced (intrvl : ℚ) (inp : CycleInput) (s : AiState)
    (h : s.result.frameCount = s.frameCount) :
    (aiCycle intrvl inp s).state.result.frameCount
      = (aiCycle intrvl inp s).state.frameCount := by
  obtain ⟨en, fr, eo, oc, ts, el⟩ := inp
  cases en
  · exact h
  · rcases fr with _ | f
    · exact h
    · cases eo
      · exact h
      · rcases oc with text | ⟨st, body⟩ | _ | _ <;> first | exact h | rfl

/-- Along any run from the initial state, the published `frame_count`
equals the loop-local counter. -/
theorem aiRun_frameCount_synced (intrvl : ℚ) (inps : List CycleInput) :
    (aiRun intrvl inps initialAiState).result.frameCount
      = (aiRun intrvl inps initialAiState).frameCount := by
  suffices hgen : ∀ (s : AiState), s.result.frameCount = s.frameCount →
      (inps.foldl (fun st i => (aiCycle intrvl i st).state) s).result.frameCount
        = (inps.foldl (fun st i => (aiCycle intrvl i st).state) s).frameCount by
    exact hgen initialAiState rfl
  induction inps with
  | nil => intro s h; exact h
  | cons i is ih =>
      intro s h
      exact ih _ (aiCycle_frameCount_synced intrvl i s h)

/-- C6: a failed analysis cycle updates only `error` — with the message
classifying the failure — leaving description, timestamp,
processing_time and frame_count untouched; a successful cycle clears
`error`; and along any run from startup, `frame_count` increases by
exactly 1 on a successful cycle and is unchanged on any other cycle. -/
theorem analysis_error_effect (intrvl : ℚ) (inp : CycleInput) (s : AiState)
    (inps : List CycleInput) :
    (inp.enabled = true → inp.frame.isSome = true → inp.encodeOk = true →
      (inp.outcome = .timeout →
        (aiCycle intrvl inp s).state.result
          = { s.result with error := some timeoutMsg }) ∧
      (inp.outcome = .connError →
        (aiCycle intrvl inp s).state.result
          = { s.result with error := some connErrorMsg }) ∧
      (∀ st body, inp.outcome = .httpError st body →
        (aiCycle intrvl inp s).state.result
          = { s.result with error := some (otherErrorMsg (apiErrorText st body)) })) ∧
    (inp.enabled = true → inp.frame.isSome = true → inp.encodeOk = false →
      (aiCycle intrvl inp s).state.result
        = { s.result with error := some (otherErrorMsg "Failed to encode frame") }) ∧
    (isSuccessCycle inp = true →
      (aiCycle intrvl inp s).state.result.error = none) ∧
    ((isSuccessCycle inp = true →
        (aiCycle intrvl inp (aiRun intrvl inps initialAiState)).state.result.frameCount
          = (aiRun intrvl inps initialAiState).result.frameCount + 1) ∧
     (isSuccessCycle inp = false →
        (aiCycle intrvl inp (aiRun intrvl inps initialAiState)).state.result.frameCount
          = (aiRun intrvl inps initialAiState).result.frameCount)) := by
  obtain ⟨en, fr, eo, oc, ts, el⟩ := inp
  refine ⟨?_, ?_, ?_, ?_, ?_⟩
  · rintro rfl hfr rfl
    obtain ⟨f, rfl⟩ := Option.isSome_iff_exists.mp hfr
    refine ⟨?_, ?_, ?_⟩
    · rintro rfl; simp [aiCycle, aiErrorStep]
    · rintro rfl; simp [aiCycle, aiErrorStep]
    · rintro st body rfl; simp [aiCycle, aiErrorStep]
  · rintro rfl hfr rfl
    obtain ⟨f, rfl⟩ := Option.isSome_iff_exists.mp hfr
    simp [aiCycle, aiErrorStep]
  · intro hsucc
    simp only [isSuccessCycle, Bool.and_eq_true] at hsucc
    obtain ⟨⟨⟨hen, hfr⟩, heo⟩, hoc⟩ := hsucc
    obtain ⟨f, rfl⟩ := Option.isSome_iff_exists.mp hfr
    rcases oc with text | ⟨st, body⟩ | _ | _ <;> simp_all [aiCycle]
  · intro hsucc
    have hsync := aiRun_frameCount_synced intrvl inps
    simp only [isSuccessCycle, Bool.and_eq_true] at hsucc
    obtain ⟨⟨⟨hen, hfr⟩, heo⟩, hoc⟩ := hsucc
    obtain ⟨f, rfl⟩ := Option.isSome_iff_exists.mp hfr
    rcases oc with text | ⟨st, body⟩ | _ | _ <;> simp_all [aiCycle]
  · intro hfail
    have hsync := aiRun_frameCount_synced intrvl inps
    cases en
    · simp [aiCycle]
    · rcases fr with _ | f
      · simp [aiCycle]
      · cases eo
        · simp [aiCycle, aiErrorStep]
        · rcases oc with text | ⟨st, body⟩ | _ | _ <;>
            simp_all [aiCycle, aiErrorStep, isSuccessCycle]

/-- Witness for C6: from the initial state, a timeout cycle changes only
the error message, and a subsequent successful cycle clears the error
and bumps `frame_count` from 0 to 1. -/
theorem analysis_error_effect_witness :
    (aiCycle 5 ⟨true, some ⟨1, 1, [0]⟩, true, .timeout, "12:00:00", 2⟩
        initialAiState).state.result
      = { initialAnalysisResult with error := some timeoutMsg } ∧
    (aiCycle 5 ⟨true, some ⟨1, 1, [0]⟩, true, .ok "hi", "12:00:05", 2⟩
        (aiRun 5 [] initialAiState)).state.result.error = none ∧
    (aiCycle 5 ⟨true, some ⟨1, 1, [0]⟩, true, .ok "hi", "12:00:05", 2⟩
        (aiRun 5 [] initialAiState)).state.result.frameCount
      = (aiRun 5 [] initialAiState).result.frameCount + 1 := by
  have h1 := (analysis_error_effect 5
    ⟨true, some ⟨1, 1, [0]⟩, true, .timeout, "12:00:00", 2⟩ initialAiState []).1
    rfl rfl rfl
  have h2 := analysis_error_effect 5
    ⟨true, some ⟨1, 1, [0]⟩, true, .ok "hi", "12:00:05", 2⟩ initialAiState []
  exact ⟨h1.1 rfl, h2.2.2.1 rfl, h2.2.2.2.1 rfl⟩

/-! Helper lemmas about the cleanup pipeline. -/

theorem closeTag_length : closeTag.length = 8 := rfl

/-- `</think>` cannot overlap itself: no proper suffix of it is one of
its prefixes. -/
theorem closeTag_no_overlap :
    ∀ k < 8, 1 ≤ k → (closeTag.drop k).isPrefixOf closeTag = false := by decide

/-- When `b` contains no `</think>`, the first `</think>` of
`b ++ </think> ++ c` is the explicit one, so the scan drops through it
and returns exactly `c`. -/
theorem dropThroughClose_append (b c : List Char)
    (hb : containsSeq closeTag b = false) :
    dropThroughClose (b ++ (closeTag ++ c)) = some c := by
  induction b with
  | nil =>
      rw [List.nil_append]
      have h1 : closeTag ++ c = '<' :: ('/' :: 't' :: 'h' :: 'i' :: 'n' :: 'k' :: '>'::c) := rfl
      rw [h1]
      simp only [dropThroughClose]
      have hpre : closeTag.isPrefixOf ('<' :: ('/' :: 't' :: 'h' :: 'i' :: 'n' :: 'k' :: '>'::c))
          = true := by
        rw [← h1]
        exact List.isPrefixOf_iff_prefix.mpr (List.prefix_append _ _)
      rw [hpre, if_pos rfl]
      rfl
  | cons x b' ih =>
      simp only [containsSeq, Bool.or_eq_false_iff] at hb
      have hcond : closeTag.isPrefixOf (x :: (b' ++ (closeTag ++ c))) = false := by
        by_contra hcc
        rw [Bool.not_eq_false] at hcc
        have hp : closeTag <+: (x :: b') ++ (closeTag ++ c) :=
          List.isPrefixOf_iff_prefix.mp hcc
        by_cases hk : 8 ≤ (x :: b').length
        · have htake : closeTag = List.take 8 ((x :: b') ++ (closeTag ++ c)) := by
            have h0 := List.prefix_iff_eq_take.mp hp
            rwa [closeTag_length] at h0
          rw [List.take_append_eq_append_take,
            show (8 : ℕ) - (x :: b').length = 0 by omega,
            List.take_zero, List.append_nil] at htake
          have hpre' : closeTag <+: x :: b' := htake ▸ List.take_prefix 8 (x :: b')
          have hbool : closeTag.isPrefixOf (x :: b') = true :=
            List.isPrefixOf_iff_prefix.mpr hpre'
          rw [hb.1] at hbool
          exact Bool.noConfusion hbool
        · push_neg at hk
          have hk1 : 1 ≤ (x :: b').length := by simp
          have htake : closeTag = (x :: b') ++ List.take (8 - (x :: b').length) closeTag := by
            have h0 := List.prefix_iff_eq_take.mp hp
            rw [closeTag_length, List.take_append_eq_append_take,
              List.take_of_length_le (by omega : (x :: b').length ≤ 8),
              List.take_append_eq_append_take,
              show 8 - (x :: b').length - closeTag.length = 0 by
                rw [closeTag_length]; omega,
              List.take_zero, List.append_nil] at h0
            exact h0
          have hdrop : closeTag.drop (x :: b').length
              = List.take (8 - (x :: b').length) closeTag := by
            conv_lhs => rw [htake]
            exact List.drop_left _ _
          have hpre2 : (closeTag.drop (x :: b').length).isPrefixOf closeTag = true := by
            rw [hdrop]
            exact List.isPrefixOf_iff_prefix.mpr ( List.take_prefix _ _)
          rw [closeTag_no_overlap (x :: b').length (by omega) hk1] at hpre2
          exact Bool.noConfusion hpre2
      rw [List.cons_append]
      simp only [dropThroughClose, hcond, Bool.false_eq_true, if_false]
      exact ih hb.2

/-- When `b` contains no `</think>`, the whole matched block
`<think> ++ b ++ </think>` is removed and scanning continues after it. -/
theorem removeThink_append (b c : List Char)
    (hb : containsSeq closeTag b = false) :
    removeThink (openTag ++ (b ++ (closeTag ++ c))) = removeThink c := by
  have h1 : openTag ++ (b ++ (closeTag ++ c))
      = '<' :: ('t' :: 'h' :: 'i' :: 'n' :: 'k' :: '>'::(b ++ (closeTag ++ c))) := rfl
  have hpre : openTag.isPrefixOf
      ('<' :: ('t' :: 'h' :: 'i' :: 'n' :: 'k' :: '>'::(b ++ (closeTag ++ c)))) = true := by
    rw [← h1]
    exact List.isPrefixOf_iff_prefix.mpr (List.prefix_append _ _)
  have hdrop7 : List.drop 7
      ('<' :: ('t' :: 'h' :: 'i' :: 'n' :: 'k' :: '>'::(b ++ (closeTag ++ c))))
      = b ++ (closeTag ++ c) := rfl
  rw [removeThink, h1]
  simp only [List.length_cons]
  simp only [removeThinkAux, hpre, if_pos rfl, hdrop7,
    dropThroughClose_append b c hb]
  exact removeThinkAux_fuel _ c c.length
    (by simp [closeTag]; omega) le_rfl

theorem pyStrip_eq_rdrop (l : List Char) :
    pyStrip l = List.rdropWhile isPyWhitespace (List.dropWhile isPyWhitespace l) := rfl

/-- Stripping only removes characters. -/
theorem mem_of_mem_pyStrip {a : Char} {l : List Char} (h : a ∈ pyStrip l) : a ∈ l := by
  rw [pyStrip_eq_rdrop] at h
  exact (List.dropWhile_suffix isPyWhitespace).subset
    (( List.rdropWhile_prefix isPyWhitespace _).subset h)

/-- Python `strip` is idempotent. -/
theorem pyStrip_idem (l : List Char) : pyStrip (pyStrip l) = pyStrip l := by
  rw [pyStrip_eq_rdrop, pyStrip_eq_rdrop]
  have hB : List.dropWhile isPyWhitespace
      (List.rdropWhile isPyWhitespace (List.dropWhile isPyWhitespace l))
      = List.rdropWhile isPyWhitespace (List.dropWhile isPyWhitespace l) := by
    rw [List.dropWhile_eq_self_iff]
    intro hl
    obtain ⟨t, ht⟩ := List.rdropWhile_prefix isPyWhitespace
      (List.dropWhile isPyWhitespace l)
    have hA : 0 < (List.dropWhile isPyWhitespace l).length := by
      rw [← ht, List.length_append]
      omega
    have hget := List.dropWhile_get_zero_not isPyWhitespace l hA
    have h2 := List.get_of_eq ht.symm ⟨0, hA⟩
    rw [List.get_append 0 hl] at h2
    rw [h2] at hget
    exact hget
  rw [hB, List.rdropWhile_idempotent]

/-- Every piece produced by `splitOnP` is free of separator characters. -/
theorem splitOnP_pieces_sep_free {α : Type} [DecidableEq α] (p : α → Bool) :
    ∀ (l : List α) (piece : List α), piece ∈ List.splitOnP p l →
      ∀ a ∈ piece, p a = false := by
  intro l
  induction l with
  | nil =>
      intro piece hmem a ha
      rw [List.splitOnP_nil] at hmem
      simp only [List.mem_singleton] at hmem
      subst hmem
      exact absurd ha (List.not_mem_nil a)
  | cons x xs ih =>
      intro piece hmem a ha
      rw [List.splitOnP_cons] at hmem
      by_cases hp : p x = true
      · rw [if_pos hp] at hmem
        rcases List.mem_cons.mp hmem with rfl | hmem'
        · exact absurd ha (List.not_mem_nil a)
        · exact ih piece hmem' a ha
      · rw [if_neg hp] at hmem
        obtain ⟨h, t, hht⟩ := List.exists_cons_of_ne_nil (List.splitOnP_ne_nil p xs)
        rw [hht, List.modifyHead_cons] at hmem
        rcases List.mem_cons.mp hmem with rfl | hmem'
        · rcases List.mem_cons.mp ha with rfl | ha'
          · simpa using hp
          · exact ih h (hht ▸ List.mem_cons_self h t) a ha'
        · exact ih piece (hht ▸ List.mem_cons_of_mem h hmem') a ha

/-- Pieces of `splitOn a` never contain the separator `a`. -/
theorem mem_splitOn_sep_free {a : Char} {l piece : List Char}
    (h : piece ∈ List.splitOn a l) : a ∉ piece := by
  intro hmem
  have := splitOnP_pieces_sep_free (fun b => b == a) l piece h a hmem
  simp at this

/-- C8: the cleanup maps the spec's concrete input to its concrete
output; every matched `<think> ... </think>` span (however many lines it
covers) is removed, with scanning resuming after the closing marker; and
the output text consists exactly of the non-empty stripped lines of the
de-thinked text joined by single newlines: splitting the non-empty output
on newlines recovers precisely those lines, each non-empty and
strip-idempotent. -/
theorem text_cleanup_spec :
    cleanupResponse
        "<think>ignore me</think>Cat sitting on a chair.\n\n  \nNo other objects."
      = "Cat sitting on a chair.\nNo other objects." ∧
    (∀ (b c : List Char), containsSeq closeTag b = false →
      removeThink (openTag ++ (b ++ (closeTag ++ c))) = removeThink c) ∧
    (∀ s : String, cleanupResponse s ≠ "" →
      List.splitOn '\n' (cleanupResponse s).toList
        = ((List.splitOn '\n' (pyStrip (removeThink s.toList))).map pyStrip).filter
            (fun ln => !ln.isEmpty) ∧
      ∀ ln ∈ List.splitOn '\n' (cleanupResponse s).toList,
        ln ≠ [] ∧ pyStrip ln = ln) := by
  refine ⟨by decide, removeThink_append, ?_⟩
  intro s hne
  have hx : ∀ l ∈ ((List.splitOn '\n' (pyStrip (removeThink s.toList))).map
      pyStrip).filter (fun ln => !ln.isEmpty), '\n' ∉ l := by
    intro l hl
    obtain ⟨hmap, -⟩ := List.mem_filter.mp hl
    obtain ⟨piece, hpiece, rfl⟩ := List.mem_map.mp hmap
    intro hmem
    exact mem_splitOn_sep_free hpiece (mem_of_mem_pyStrip hmem)
  have hnil : ((List.splitOn '\n' (pyStrip (removeThink s.toList))).map
      pyStrip).filter (fun ln => !ln.isEmpty) ≠ [] := by
    intro h0
    apply hne
    show String.mk (List.intercalate ['\n']
      (((List.splitOn '\n' (pyStrip (removeThink s.toList))).map pyStrip).filter
        (fun ln => !ln.isEmpty))) = ""
    rw [h0]
    rfl
  have hsplit : List.splitOn '\n' (cleanupResponse s).toList
      = ((List.splitOn '\n' (pyStrip (removeThink s.toList))).map pyStrip).filter
          (fun ln => !ln.isEmpty) := by
    show List.splitOn '\n' (List.intercalate ['\n']
      (((List.splitOn '\n' (pyStrip (removeThink s.toList))).map pyStrip).filter
        (fun ln => !ln.isEmpty))) = _
    exact List.splitOn_intercalate _ '\n' hx hnil
  refine ⟨hsplit, ?_⟩
  intro ln hln
  rw [hsplit] at hln
  obtain ⟨hmap, hfil⟩ := List.mem_filter.mp hln
  obtain ⟨piece, hpiece, rfl⟩ := List.mem_map.mp hmap
  refine ⟨?_, pyStrip_idem piece⟩
  intro h0
  rw [h0] at hfil
  simp at hfil

/-- Witness for C8: the general span-removal at a concrete multi-line
block, and the line property on a concrete non-empty output. -/
theorem text_cleanup_spec_witness :
    removeThink (openTag ++ (('a' :: '\n' :: 'b'::[]) ++ (closeTag ++ ('o' :: 'k'::[]))))
      = removeThink ('o' :: 'k'::[]) ∧
    cleanupResponse " ok \nthere " ≠ "" ∧
    (∀ ln ∈ List.splitOn '\n' (cleanupResponse " ok \nthere ").toList,
      ln ≠ [] ∧ pyStrip ln = ln) :=
  ⟨text_cleanup_spec.2.1 ('a' :: '\n' :: 'b'::[]) ('o' :: 'k'::[]) (by decide),
    by decide,
    (text_cleanup_spec.2.2 " ok \nthere " (by decide)).2⟩

/-- C9: each part written to a `/video_feed` client is exactly
`--frame` CRLF, then `Content-Type: image/jpeg` CRLF CRLF, then the JPEG
payload, then CRLF (CR = byte 13, LF = byte 10); the response
Content-Type is `multipart/x-mixed-replace` with boundary `frame`, and
the response headers disable caching. -/
theorem video_feed_format :
    (∀ jpeg : List Nat,
      framePart jpeg
        = asciiBytes "--frame" ++ [13, 10] ++
          asciiBytes "Content-Type: image/jpeg" ++ [13, 10, 13, 10] ++
          jpeg ++ [13, 10]) ∧
    videoFeedHeaders.lookup "Content-Type"
      = some "multipart/x-mixed-replace; boundary=frame" ∧
    videoFeedHeaders.lookup "Cache-Control"
      = some "no-cache, no-store, must-revalidate" ∧
    videoFeedHeaders.lookup "Pragma" = some "no-cache" ∧
    videoFeedHeaders.lookup "Expires" = some "0" := by
  refine ⟨?_, by decide, by decide, by decide, by decide⟩
  intro jpeg
  have h1 : asciiBytes "--frame\r\n" = asciiBytes "--frame" ++ [13, 10] := by decide
  have h2 : asciiBytes "Content-Type: image/jpeg\r\n\r\n"
      = asciiBytes "Content-Type: image/jpeg" ++ [13, 10, 13, 10] := by decide
  have h3 : asciiBytes "\r\n" = [13, 10] := by decide
  rw [framePart, h1, h2, h3]
  simp [List.append_assoc]

/-- C10: the launcher's command carries exactly the width, height, fps
and port arguments (plus `--device` when a camera was detected); it is
independent of the selected JPEG quality, which is never passed along
(nor does the stream server accept a quality flag), and the `/video_feed`
encoder always uses the fixed JPEG quality 80. -/
theorem launcher_command_spec :
    (∀ (py sc : String) (sel : Selections) (det : Option String),
      get_stream_command py sc sel det
        = [py, sc,
            "--width", toString (RESOLUTIONS.get sel.resolution).2.1,
            "--height", toString (RESOLUTIONS.get sel.resolution).2.2,
            "--fps", toString (FRAMERATES.get sel.fps).2,
            "--port", toString (PORTS.get sel.port).2] ++
          (match det with | some d => ["--device", d] | none => [])) ∧
    (∀ (py sc : String) (sel : Selections) (det : Option String)
        (q : Fin QUALITY.length),
      get_stream_command py sc { sel with quality := q } det
        = get_stream_command py sc sel det) ∧
    ("--width" ∈ cameraStreamArgFlags ∧ "--height" ∈ cameraStreamArgFlags ∧
      "--fps" ∈ cameraStreamArgFlags ∧ "--port" ∈ cameraStreamArgFlags ∧
      "--device" ∈ cameraStreamArgFlags) ∧
    "--quality" ∉ cameraStreamArgFlags ∧
    streamVideoJpegQuality = 80 :=
  ⟨fun _ _ _ _ => rfl, fun _ _ _ _ _ => rfl,
    ⟨by decide, by decide, by decide, by decide, by decide⟩,
    by decide, rfl⟩

end JetsonVision
